import Mathlib

set_option autoImplicit false

/- Verification of the TaskNag notification engine: a shallow embedding of the
evaluator (notification_service.rs), the URL validator (url_validator.rs), the
browser action executor (browser_action_service.rs) and the delivery loop
(lib.rs check_and_fire_notifications), with theorems for the specified
properties. -/

namespace TaskNag

/- Local timestamps at minute granularity, modelling chrono DateTime<Local>.
`day` is the calendar day index with day 0 = 1970-01-01 (a Thursday); `minute`
is the minute of day (a canonical instant has `minute < 1440`). The app runs in
JST, which has no DST, so every local date/time combination is unambiguous and
subtracting whole days never changes the minute of day. -/
structure LocalDT where
  day : Int
  minute : Nat
  deriving Repr, DecidableEq

/- Total minutes since the epoch; differences of `toAbs` model
chrono signed-duration `num_minutes()` for whole-minute instants. -/
def LocalDT.toAbs (t : LocalDT) : Int := t.day * 1440 + t.minute

/- chrono `Weekday::num_days_from_monday()` for the date of `t`:
day 0 = 1970-01-01 was a Thursday, which is 3 days from Monday. -/
def LocalDT.weekdayFromMonday (t : LocalDT) : Nat := ((t.day + 3).emod 7).toNat

/- The weekday numbering used by the spec and by the Task model field comment
(0=Sunday .. 6=Saturday): Thursday (day 0) is 4. -/
def claimWeekday (t : LocalDT) : Nat := ((t.day + 4).emod 7).toNat

/- Day index of a Gregorian calendar date (days since 1970-01-01), standard
days-from-civil computation, used to name concrete dates in theorems. -/
def daysFromCivil (y : Int) (m d : Nat) : Int :=
  let yAdj : Int := if m ≤ 2 then y - 1 else y
  let era : Int := yAdj.fdiv 400
  let yoe : Int := yAdj - era * 400
  let mp : Int := if m ≤ 2 then (m : Int) + 9 else (m : Int) - 3
  let doy : Int := (153 * mp + 2).fdiv 5 + (d : Int) - 1
  let doe : Int := yoe * 365 + yoe.fdiv 4 - yoe.fdiv 100 + doy
  era * 146097 + doe - 719468

/- A local instant from calendar date and wall-clock time. -/
def mkLocal (y : Int) (m d hh mm : Nat) : LocalDT :=
  ⟨daysFromCivil y m d, hh * 60 + mm⟩

/- error.rs AppError, with the payloads of the sqlx/thiserror variants
flattened to their display strings. -/
inductive AppError where
  | Database : String → AppError
  | NotFound : String → AppError
  | InvalidInput : String → AppError
  | Validation : String → AppError
  | Internal : String → AppError
  | ParseError : String → AppError
  deriving Repr, DecidableEq

/- models/task.rs Task, restricted to the fields the notification engine reads
(description, priority, parent_id, completed_at, created_at, updated_at and
progress are never consulted by the evaluator or dispatcher and are omitted).
`due_date` holds the chrono-parsed RFC3339 due instant; `none` covers both an
absent column and an unparsable string, which the evaluator treats alike
(both short-circuit `check_due_date_notification` to no notification). -/
structure Task where
  id : String
  title : String
  status : String
  due_date : Option LocalDT
  notification_type : Option String
  notification_days_before : Option Int
  notification_time : Option String
  notification_days_of_week : Option String
  notification_level : Option Int
  browser_actions : Option String
  deriving Repr, DecidableEq

/- models/task.rs TaskNotification. -/
structure TaskNotification where
  task_id : String
  title : String
  level : Int
  days_until_due : Option Int
  notification_type : String
  deriving Repr, DecidableEq

/- Split a character list at every occurrence of `sep`, keeping empty pieces:
the behaviour of Rust's str::split on a char pattern (and of String.splitOn),
defined structurally so the kernel can evaluate it. -/
def splitOnChar (sep : Char) : List Char → List (List Char)
  | [] => [[]]
  | c :: rest =>
    if c = sep then [] :: splitOnChar sep rest
    else
      match splitOnChar sep rest with
      | [] => [[c]]
      | h :: t => (c :: h) :: t

def charsToNatAux : List Char → Nat → Option Nat
  | [], acc => some acc
  | c :: rest, acc =>
    if c.isDigit then charsToNatAux rest (acc * 10 + (c.toNat - 48)) else none

/- Parse a nonempty all-digit character list as a number: Rust's
str::parse::<u32> (the u32 range bound and an optional leading plus sign
accepted by Rust are not modelled; no claim exercises them). -/
def charsToNat? (cs : List Char) : Option Nat :=
  if cs.isEmpty then none else charsToNatAux cs 0

/- The HH:MM parsing both evaluator paths perform: split(':'), require exactly
two parts, parse each as an unsigned integer. -/
def parseTimeParts (s : String) : Option (Nat × Nat) :=
  let parts := splitOnChar ':' s.data
  if parts.length = 2 then
    match (parts[0]?).bind charsToNat?, (parts[1]?).bind charsToNat? with
    | some h, some m => some (h, m)
    | _, _ => none
  else none

/- notification_service.rs check_due_date_notification. The due instant is
shifted back by `days_before` exact days, its calendar date is taken
(`date_naive`, modelled by flooring `toAbs`), and the wall-clock time from
`notification_time` (default "09:00") is attached; `and_hms_opt` rejects
out-of-range components. Fires when now is 0..=15 minutes past that target. -/
def check_due_date_notification (task : Task) (now : LocalDT) :
    Option TaskNotification := do
  let due ← task.due_date
  let days_before := task.notification_days_before.getD 1
  let nt := task.notification_time.getD "09:00"
  let (hour, minute) ← parseTimeParts nt
  if 23 < hour ∨ 59 < minute then none
  else
    let notification_date := (due.toAbs - days_before * 1440).fdiv 1440
    let notification_datetime : Int := notification_date * 1440 + (hour * 60 + minute : Nat)
    let time_diff_minutes := now.toAbs - notification_datetime
    if 0 ≤ time_diff_minutes ∧ time_diff_minutes ≤ 15 then
      some { task_id := task.id, title := task.title,
             level := task.notification_level.getD 1,
             days_until_due := some ((due.toAbs - now.toAbs).tdiv 1440),
             notification_type := "due_date_based" }
    else none

/- notification_service.rs check_recurring_notification. `parseDow` abstracts
serde_json deserialisation of the stored days-of-week string into a Vec<u32>.
The current weekday is num_days_from_monday() + 1, i.e. 1=Monday .. 7=Sunday.
The day-rollover branch subtracts in u32; release-mode wrapping is modelled
with emod 2^32 (wrapping of intermediate products for hours beyond 2^32/60 is
not modelled; no claim exercises it). -/
def check_recurring_notification (parseDow : String → Option (List Nat))
    (task : Task) (now : LocalDT) : Option TaskNotification := do
  let notification_time ← task.notification_time
  let days_str ← task.notification_days_of_week
  let days_of_week ← parseDow days_str
  let current_weekday := now.weekdayFromMonday + 1
  if ¬ days_of_week.contains current_weekday then none
  else do
    let (hour, minute) ← parseTimeParts notification_time
    let target_minutes := hour * 60 + minute
    let current_minutes := now.minute
    let time_diff_after : Int :=
      if target_minutes ≤ current_minutes then
        ((current_minutes - target_minutes : Nat) : Int)
      else ((1440 + current_minutes : Int) - target_minutes).emod (2 ^ 32)
    if time_diff_after ≤ 15 then
      some { task_id := task.id, title := task.title,
             level := task.notification_level.getD 1,
             days_until_due := none,
             notification_type := "recurring" }
    else none

/- The per-task body of notification_service.rs check_notifications: completed
tasks and tasks without a notification type (or type "none") are skipped, then
the type selects the evaluator. -/
def evalTask (parseDow : String → Option (List Nat)) (task : Task)
    (now : LocalDT) : Option TaskNotification :=
  if task.status = "done" then none
  else
    match task.notification_type with
    | none => none
    | some t =>
      if t = "none" then none
      else if t = "due_date_based" then check_due_date_notification task now
      else if t = "recurring" then check_recurring_notification parseDow task now
      else none

/- notification_service.rs check_notifications with the database snapshot
abstracted as the given task list: the only fallible step in the source is the
sqlx fetch, so with a snapshot in hand the sweep always returns Ok of the
notifications collected in task order. -/
def check_notifications (parseDow : String → Option (List Nat))
    (tasks : List Task) (now : LocalDT) :
    Except AppError (List TaskNotification) :=
  .ok (tasks.filterMap (fun t => evalTask parseDow t now))

/- notification_service.rs should_execute_browser_actions (defined and tested
in the source but never called on the fire path). -/
def should_execute_browser_actions (notification_level : Option Int) : Bool :=
  match notification_level with
  | some 3 => true
  | some 2 => true
  | some 1 => false
  | _ => false

/- models/browser_action.rs URLValidationResult. -/
structure URLValidationResult where
  is_valid : Bool
  protocol : String
  host : String
  error : Option String
  deriving Repr, DecidableEq

def URLValidationResult.valid (protocol host : String) : URLValidationResult :=
  ⟨true, protocol, host, none⟩

def URLValidationResult.invalid (e : String) : URLValidationResult :=
  ⟨false, "invalid", "", some e⟩

/- ASCII lowercasing, used where the source lowercases schemes/hosts or does
case-insensitive regex matching (all patterns involved are ASCII). -/
def lowerChars (cs : List Char) : List Char := cs.map Char.toLower

def strToLower (s : String) : String := ⟨lowerChars s.data⟩

def charsIsPrefixOf : List Char → List Char → Bool
  | [], _ => true
  | _ :: _, [] => false
  | a :: as, b :: bs => a = b && charsIsPrefixOf as bs

def charsIsInfixOf (pat : List Char) : List Char → Bool
  | [] => pat.isEmpty
  | c :: rest => charsIsPrefixOf pat (c :: rest) || charsIsInfixOf pat rest

/- Case-insensitive substring test: (?i) regex match of a literal pattern. -/
def containsCI (pat s : String) : Bool :=
  charsIsInfixOf (lowerChars pat.data) (lowerChars s.data)

/- Result of a successful URL parse: the scheme, and the host when the URL has
an authority component. -/
structure ParsedUrl where
  scheme : String
  host : Option String
  deriving Repr, DecidableEq

def schemeFirstChar (c : Char) : Bool := c.isAlpha

def schemeChar (c : Char) : Bool :=
  c.isAlpha || c.isDigit || c = '+' || c = '-' || c = '.'

def hostEndChar (c : Char) : Bool := c = '/' || c = '?' || c = '#'

/- Modelled from the external url crate (a dependency, not repository code):
the subset of WHATWG Url::parse behaviour the validator relies on. A URL needs
a scheme followed by ':'; "scheme://authority..." yields the authority's host
(ports stripped, lowercased), with an empty host a parse error for the special
network schemes; any other "scheme:opaque" input parses with no host. Strings
without a scheme (bare hosts such as "google") fail to parse. -/
def parseUrlModel (s : String) : Option ParsedUrl :=
  let cs := s.data
  let scheme := cs.takeWhile (fun c => c ≠ ':')
  if scheme.length = cs.length then none
  else
    match scheme with
    | [] => none
    | c0 :: restScheme =>
      if ¬ (schemeFirstChar c0 && restScheme.all schemeChar) then none
      else
        let schemeStr : String := ⟨lowerChars scheme⟩
        let rest := cs.drop (scheme.length + 1)
        if rest.take 2 = ['/', '/'] then
          let auth := (rest.drop 2).takeWhile (fun c => ¬ hostEndChar c)
          let host := auth.takeWhile (fun c => c ≠ ':')
          if host.isEmpty then
            if ["http", "https", "ws", "wss", "ftp"].contains schemeStr then none
            else some ⟨schemeStr, none⟩
          else some ⟨schemeStr, some ⟨lowerChars host⟩⟩
        else some ⟨schemeStr, none⟩

/- url_validator.rs parse_url_with_protocol: parse as-is; on failure, if the
string has no "://", retry with "https://" prepended. -/
def parse_url_with_protocol (s : String) : Option ParsedUrl :=
  match parseUrlModel s with
  | some u => some u
  | none =>
    if ¬ charsIsInfixOf "://".data s.data then parseUrlModel ("https://" ++ s)
    else none

def allowed_protocols : List String := ["http", "https"]

def blocked_protocols : List String := ["javascript", "data", "file", "ftp", "vbscript"]

def blocked_patterns : List String := ["javascript:", "data:", "vbscript:", "<script"]

def max_length : Nat := 2048

def hostAllowedChar (c : Char) : Bool :=
  c.isAlpha || c.isDigit || c = '.' || c = '-'

/- Whether the regex ^[a-zA-Z0-9.-]+\.[a-zA-Z]{2,}$ matches: since the final
group admits no dot, a match splits the host at its last dot into a nonempty
stem over [a-zA-Z0-9.-] and an all-alphabetic tail of length at least 2. -/
def domainRegexMatch (s : String) : Bool :=
  let cs := s.data
  let revTld := cs.reverse.takeWhile (fun c => c ≠ '.')
  if revTld.length = cs.length then false
  else
    let tld := revTld.reverse
    let stem := cs.take (cs.length - tld.length - 1)
    ¬ stem.isEmpty && stem.all hostAllowedChar &&
      decide (2 ≤ tld.length) && tld.all Char.isAlpha

/- url_validator.rs is_valid_host. -/
def is_valid_host (host : String) : Bool :=
  if host.isEmpty then false
  else if host = "localhost" || charsIsPrefixOf "127.".data host.data ||
      charsIsPrefixOf "192.168.".data host.data then true
  else if ¬ host.data.contains '.' then false
  else domainRegexMatch host

/- url_validator.rs validate. The parse-error message in the source appends
the url crate's error display; the model keeps the fixed prefix only. -/
def validate (url_str : String) : URLValidationResult :=
  if url_str.length > max_length then
    .invalid ("URL too long: " ++ toString url_str.length ++
      " characters (max: " ++ toString max_length ++ ")")
  else if blocked_patterns.any (fun p => containsCI p url_str) then
    .invalid "URL contains dangerous patterns"
  else
    match parse_url_with_protocol url_str with
    | none => .invalid "Invalid URL format"
    | some u =>
      let scheme := strToLower u.scheme
      if blocked_protocols.contains scheme then
        .invalid ("Blocked protocol: " ++ scheme)
      else if ¬ allowed_protocols.contains scheme then
        .invalid ("Protocol not allowed: " ++ scheme)
      else
        match u.host with
        | none => .invalid "No host found in URL"
        | some host =>
          if ¬ is_valid_host host then
            .invalid ("Invalid host format: " ++ host)
          else .valid scheme host

/- models/browser_action.rs BrowserAction (created_at, which no executor or
dispatcher logic reads, is omitted). -/
structure BrowserAction where
  id : String
  label : String
  url : String
  enabled : Bool
  order : Int
  deriving Repr, DecidableEq

/- models/browser_action.rs BrowserActionSettings. -/
structure BrowserActionSettings where
  enabled : Bool
  actions : List BrowserAction
  deriving Repr, DecidableEq

/- models/browser_action.rs BrowserActionError, payloads as display strings. -/
inductive BrowserActionError where
  | InvalidUrl : String → BrowserActionError
  | CommandFailed : String → BrowserActionError
  | Timeout : BrowserActionError
  | SecurityViolation : String → BrowserActionError
  | ServiceUnavailable : BrowserActionError
  deriving Repr, DecidableEq

instance instDecEqExcept {ε α : Type} [DecidableEq ε] [DecidableEq α] :
    DecidableEq (Except ε α) := fun a b =>
  match a, b with
  | .error e, .error f =>
    if h : e = f then .isTrue (by rw [h])
    else .isFalse (fun hh => h (by cases hh; rfl))
  | .error _, .ok _ => .isFalse (fun hh => by cases hh)
  | .ok _, .error _ => .isFalse (fun hh => by cases hh)
  | .ok x, .ok y =>
    if h : x = y then .isTrue (by rw [h])
    else .isFalse (fun hh => h (by cases hh; rfl))

/- The loop of browser_action_service.rs execute_actions: traverse the given
slice in its stored order; skip disabled actions; validate each URL, skipping
invalid ones; open valid ones and record the outcome the OS open facility
(with its 3-second timeout) produced, continuing regardless of failure.
`openOutcome` abstracts that external facility. The returned trace lists the
actions whose URL an open was attempted for, in attempt order. -/
def executeLoop (openOutcome : String → Except BrowserActionError Unit) :
    List BrowserAction → List (BrowserAction × Except BrowserActionError Unit)
  | [] => []
  | action :: rest =>
    if action.enabled then
      if (validate action.url).is_valid then
        (action, openOutcome action.url) :: executeLoop openOutcome rest
      else executeLoop openOutcome rest
    else executeLoop openOutcome rest

/- browser_action_service.rs execute_actions: runs the loop and always returns
Ok(()) — per-action validation failures, open failures and timeouts are logged
and never escape. -/
def execute_actions (openOutcome : String → Except BrowserActionError Unit)
    (actions : List BrowserAction) :
    Except BrowserActionError Unit ×
      List (BrowserAction × Except BrowserActionError Unit) :=
  (.ok (), executeLoop openOutcome actions)

/- notification_service.rs parse_browser_action_settings: an empty or
whitespace-only stored blob yields disabled defaults; otherwise serde_json
deserialisation, abstracted as `parseBA`. The source wraps the serde error in
AppError::ParseError; the model keeps the oracle's error. -/
def parse_browser_action_settings
    (parseBA : String → Except AppError BrowserActionSettings) (json : String) :
    Except AppError BrowserActionSettings :=
  if json.data.all Char.isWhitespace then .ok ⟨false, []⟩
  else parseBA json

/- The browser-action part of notification_service.rs fire_notification: the
task's stored blob is parsed (parse failures logged and swallowed); when the
settings are enabled and non-empty, execute_actions runs on the full stored
action list — no level check and no re-sorting happens on this path. Returns
the trace of attempted opens. -/
def fire_browser_attempts
    (parseBA : String → Except AppError BrowserActionSettings)
    (openOutcome : String → Except BrowserActionError Unit) (task : Task) :
    List (BrowserAction × Except BrowserActionError Unit) :=
  match task.browser_actions with
  | none => []
  | some json =>
    match parse_browser_action_settings parseBA json with
    | .error _ => []
    | .ok settings =>
      if settings.enabled ∧ ¬ settings.actions.isEmpty then
        (execute_actions openOutcome settings.actions).2
      else []

/- The observable side effects of delivering one fired notification: the
browser attempts of fire_notification, then the steps of the loop body of
lib.rs check_and_fire_notifications — the desktop alert is always built and
shown (with the "Default" sound exactly on the Windows build), and the main
window is shown/unminimized/focused only for level >= 3. Task lookup is
abstracted as the given task. -/
structure DispatchEffects where
  attempted : List (BrowserAction × Except BrowserActionError Unit)
  alert_shown : Bool
  sound_used : Bool
  window_foregrounded : Bool
  deriving Repr, DecidableEq

def DispatchEffects.ranBrowser (e : DispatchEffects) : Bool :=
  ¬ e.attempted.isEmpty

def notification_effects (is_windows : Bool)
    (parseBA : String → Except AppError BrowserActionSettings)
    (openOutcome : String → Except BrowserActionError Unit)
    (task : Task) (notification : TaskNotification) : DispatchEffects :=
  { attempted := fire_browser_attempts parseBA openOutcome task
  , alert_shown := true
  , sound_used := is_windows
  , window_foregrounded := decide (3 ≤ notification.level) }

/- The delivery loop of lib.rs check_and_fire_notifications over the
notifications the sweep computed: `fire` abstracts
notification_service.fire_notification (whose only error source is the task
lookup) and `show_alert` the Tauri notification plugin call; both are followed
by `?`, so the first error aborts the loop and is returned. The first
component lists the ids of the notifications whose delivery was attempted, in
order. -/
def fire_sweep (fire show_alert : TaskNotification → Except AppError Unit) :
    List TaskNotification → List String × Except AppError Unit
  | [] => ([], .ok ())
  | n :: rest =>
    match fire n with
    | .error e => ([n.task_id], .error e)
    | .ok _ =>
      match show_alert n with
      | .error e => ([n.task_id], .error e)
      | .ok _ =>
        let r := fire_sweep fire show_alert rest
        (n.task_id :: r.1, r.2)

/- lib.rs check_and_fire_notifications: evaluate the whole snapshot first,
then deliver the fired notifications sequentially. -/
def check_and_fire_notifications (parseDow : String → Option (List Nat))
    (fire show_alert : TaskNotification → Except AppError Unit)
    (tasks : List Task) (now : LocalDT) : List String × Except AppError Unit :=
  match check_notifications parseDow tasks now with
  | .error e => ([], .error e)
  | .ok ns => fire_sweep fire show_alert ns

/- ------------------------------------------------------------------ -/
/- Claim-statement predicates and concrete inputs used in theorems.   -/
/- ------------------------------------------------------------------ -/

/- The level gating asserted of dispatch side effects: browser actions and
foregrounding only at level 3, sound only at level 2 or above, never sound or
browser actions at level 1, the alert always. -/
def levelGatedEffects (e : DispatchEffects) (level : Int) : Prop :=
  (e.ranBrowser = true → 3 ≤ level) ∧
  (e.window_foregrounded = true → 3 ≤ level) ∧
  (e.sound_used = true → 2 ≤ level) ∧
  (level = 1 → e.sound_used = false ∧ e.ranBrowser = false) ∧
  e.alert_shown = true

/- A stored notification configuration malformed in one of the senses the
spec names: an unparsable timeOfDay string on the path that reads it, or a
daysOfWeek string that serde_json cannot deserialise into an integer array. -/
def MalformedConfig (p : String → Option (List Nat)) (t : Task) : Prop :=
  (t.notification_type = some "due_date_based" ∧
    ∃ s, t.notification_time = some s ∧ parseTimeParts s = none) ∨
  (t.notification_type = some "recurring" ∧
    ((∃ s, t.notification_time = some s ∧ parseTimeParts s = none) ∨
     (∃ s, t.notification_days_of_week = some s ∧ p s = none)))

/- A days-of-week parse oracle for the tasks below, mapping the JSON texts
they store to the integer lists serde_json would produce. -/
def dowOracle : String → Option (List Nat) := fun s =>
  if s = "[0]" then some [0]
  else if s = "[7]" then some [7]
  else if s = "[1,3,5]" then some [1, 3, 5]
  else none

/- A due-date-based task: due 2025-03-10T15:00 local, one day of lead,
no explicit timeOfDay, level 2. -/
def dueTask : Task :=
  { id := "due1", title := "report", status := "todo",
    due_date := some (mkLocal 2025 3 10 15 0),
    notification_type := some "due_date_based",
    notification_days_before := some 1, notification_time := none,
    notification_days_of_week := none, notification_level := some 2,
    browser_actions := none }

/- A due-date-based task leaving both daysBefore and timeOfDay unset. -/
def defaultsTask : Task :=
  { id := "due2", title := "defaults", status := "todo",
    due_date := some (mkLocal 2025 3 10 15 0),
    notification_type := some "due_date_based",
    notification_days_before := none, notification_time := none,
    notification_days_of_week := none, notification_level := none,
    browser_actions := none }

/- A recurring 09:00 task whose stored days-of-week text is the argument. -/
def recTask (dow : String) : Task :=
  { id := "rec1", title := "weekly", status := "todo", due_date := none,
    notification_type := some "recurring", notification_days_before := none,
    notification_time := some "09:00", notification_days_of_week := some dow,
    notification_level := some 1, browser_actions := none }

/- A recurring task whose stored timeOfDay lacks a ':' separator. -/
def badTimeTask : Task :=
  { id := "bad1", title := "broken", status := "todo", due_date := none,
    notification_type := some "recurring", notification_days_before := none,
    notification_time := some "0900", notification_days_of_week := some "[7]",
    notification_level := some 3, browser_actions := none }

/- Browser actions: two enabled with valid URLs stored out of order, one
enabled with a dangerous URL, one disabled. -/
def actA : BrowserAction :=
  { id := "a", label := "A", url := "https://example.com", enabled := true,
    order := 2 }

def actB : BrowserAction :=
  { id := "b", label := "B", url := "https://example.org", enabled := true,
    order := 1 }

def actBad : BrowserAction :=
  { id := "c", label := "C", url := "javascript:x", enabled := true,
    order := 3 }

def actOff : BrowserAction :=
  { id := "d", label := "D", url := "https://example.net", enabled := false,
    order := 0 }

/- Open oracles: every open succeeding, every open timing out. -/
def openOk : String → Except BrowserActionError Unit := fun _ => .ok ()

def openFail : String → Except BrowserActionError Unit := fun _ => .error .Timeout

/- A serde oracle returning an enabled two-action set stored out of order. -/
def parseTwoActions : String → Except AppError BrowserActionSettings :=
  fun _ => .ok ⟨true, [actA, actB]⟩

/- A task carrying a stored browser-action blob, and a level-1 notification
fired for it. -/
def browserTask : Task :=
  { id := "bt1", title := "pay bills", status := "todo", due_date := none,
    notification_type := some "recurring", notification_days_before := none,
    notification_time := some "09:00", notification_days_of_week := some "[7]",
    notification_level := some 1, browser_actions := some "stored-blob" }

def lowNotif : TaskNotification :=
  { task_id := "bt1", title := "pay bills", level := 1,
    days_until_due := none, notification_type := "recurring" }

/- Notifications and delivery oracles for the sweep loop. -/
def notifA : TaskNotification :=
  { task_id := "na", title := "first", level := 1, days_until_due := none,
    notification_type := "recurring" }

def notifB : TaskNotification :=
  { task_id := "nb", title := "second", level := 1, days_until_due := none,
    notification_type := "recurring" }

def notifC : TaskNotification :=
  { task_id := "nc", title := "third", level := 1, days_until_due := none,
    notification_type := "recurring" }

def deliverOk : TaskNotification → Except AppError Unit := fun _ => .ok ()

/- A fire oracle failing exactly on notifB, as fire_notification does when the
task row backing the notification cannot be looked up. -/
def deliverFailB : TaskNotification → Except AppError Unit := fun n =>
  if n.task_id = "nb" then
    .error (.NotFound "Task with id nb not found")
  else .ok ()

/- The third concrete URL of the validator scenario: "https://" followed by
3000 characters. -/
def longUrl : String := "https://" ++ String.mk (List.replicate 3000 'a')

/- ------------------------------------------------------------------ -/
/- Helper lemmas shared by the claim theorems.                        -/
/- ------------------------------------------------------------------ -/

theorem longUrl_length : longUrl.length = 3008 := by
  have h2 : (String.mk (List.replicate 3000 'a')).length = 3000 := by
    show (List.replicate 3000 'a').length = 3000
    exact List.length_replicate 3000 'a'
  rw [longUrl, String.length_append, h2]
  decide

/- Taking the calendar date of an instant shifted back by whole days:
the floor division underlying `date_naive` in the model. -/
theorem fdiv_day_sub (day d : Int) (c : Nat) (hc : c < 1440) :
    ((day * 1440 + (c : Int)) - d * 1440).fdiv 1440 = day - d := by
  have h : (day * 1440 + (c : Int)) - d * 1440 = (c : Int) + (day - d) * 1440 := by
    ring
  rw [h, Int.fdiv_eq_ediv _ (by norm_num),
    Int.add_mul_ediv_right _ _ (by norm_num : (1440 : Int) ≠ 0),
    Int.ediv_eq_zero_of_lt (by positivity) (by exact_mod_cast hc), zero_add]

/- The due-date evaluator fires exactly when now is 0..=15 minutes past the
boundary: timeOfDay (or its default) attached to the calendar day lying
daysBefore days before the due instant. -/
theorem check_due_date_isSome (task : Task) (now due : LocalDT) (h m : Nat)
    (hdue : task.due_date = some due) (hwf : due.minute < 1440)
    (htp : parseTimeParts (task.notification_time.getD "09:00") = some (h, m))
    (hh : h ≤ 23) (hm2 : m ≤ 59) :
    ((check_due_date_notification task now).isSome = true ↔
      (0 ≤ now.toAbs -
          ((due.day - task.notification_days_before.getD 1) * 1440 + (h * 60 + m : Nat)) ∧
        now.toAbs -
          ((due.day - task.notification_days_before.getD 1) * 1440 + (h * 60 + m : Nat)) ≤ 15)) := by
  unfold check_due_date_notification
  rw [hdue]
  simp only [Option.bind_eq_bind, Option.some_bind, htp]
  rw [if_neg (by omega)]
  have hrw : (due.toAbs - task.notification_days_before.getD 1 * 1440).fdiv 1440 =
      due.day - task.notification_days_before.getD 1 := by
    unfold LocalDT.toAbs
    exact fdiv_day_sub due.day _ due.minute hwf
  rw [hrw]
  split_ifs with hcond
  · simp [hcond]
    omega
  · simp [hcond]
    omega

/- evalTask reduces to the due-date evaluator for a not-done task whose
notification type is "due_date_based". -/
theorem evalTask_due (p : String → Option (List Nat)) (task : Task)
    (now : LocalDT) (hstat : ¬ task.status = "done")
    (hty : task.notification_type = some "due_date_based") :
    evalTask p task now = check_due_date_notification task now := by
  simp [evalTask, hstat, hty]

/- evalTask reduces to the recurring evaluator for a not-done task whose
notification type is "recurring". -/
theorem evalTask_recurring (p : String → Option (List Nat)) (task : Task)
    (now : LocalDT) (hstat : ¬ task.status = "done")
    (hty : task.notification_type = some "recurring") :
    evalTask p task now = check_recurring_notification p task now := by
  simp [evalTask, hstat, hty]

/- A malformed stored configuration makes the evaluator yield nothing for
that task. -/
theorem evalTask_malformed (p : String → Option (List Nat)) (t : Task)
    (now : LocalDT) (hmal : MalformedConfig p t) : evalTask p t now = none := by
  by_cases hdone : t.status = "done"
  · simp [evalTask, hdone]
  · rcases hmal with ⟨hty, s, hs, hps⟩ | ⟨hty, hbad⟩
    · rw [evalTask_due p t now hdone hty]
      cases hdd : t.due_date with
      | none => simp [check_due_date_notification, hdd]
      | some due => simp [check_due_date_notification, hdd, hs, hps]
    · rw [evalTask_recurring p t now hdone hty]
      rcases hbad with ⟨s, hs, hps⟩ | ⟨s, hs, hps⟩
      · cases hdw : t.notification_days_of_week with
        | none => simp [check_recurring_notification, hdw, hs]
        | some ds =>
          cases hpd : p ds with
          | none => simp [check_recurring_notification, hdw, hpd, hs]
          | some days =>
            by_cases hcont : now.weekdayFromMonday + 1 ∈ days
            · simp [check_recurring_notification, hdw, hpd, hs, hcont, hps]
            · simp [check_recurring_notification, hdw, hpd, hs, hcont]
      · cases hnt : t.notification_time with
        | none => simp [check_recurring_notification, hnt]
        | some nt => simp [check_recurring_notification, hnt, hs, hps]

/- The executor loop distributes over concatenation of the action list. -/
theorem executeLoop_append (o : String → Except BrowserActionError Unit)
    (a b : List BrowserAction) :
    executeLoop o (a ++ b) = executeLoop o a ++ executeLoop o b := by
  induction a with
  | nil => rfl
  | cons x rest ih =>
    by_cases he : x.enabled = true
    · by_cases hv : (validate x.url).is_valid = true
      · simp [executeLoop, he, hv, ih]
      · simp [executeLoop, he, hv, ih]
    · simp [executeLoop, he, ih]

/- An enabled action with an invalid URL is skipped by the executor loop. -/
theorem executeLoop_cons_invalid (o : String → Except BrowserActionError Unit)
    (bad : BrowserAction) (rest : List BrowserAction)
    (he : bad.enabled = true) (hv : (validate bad.url).is_valid = false) :
    executeLoop o (bad :: rest) = executeLoop o rest := by
  simp [executeLoop, he, hv]

/- The actions the executor attempts to open are exactly the enabled ones
with valid URLs, in the traversal order of the given list. -/
theorem executeLoop_map_fst (o : String → Except BrowserActionError Unit)
    (acts : List BrowserAction) :
    (executeLoop o acts).map Prod.fst =
      acts.filter (fun a => a.enabled && (validate a.url).is_valid) := by
  induction acts with
  | nil => rfl
  | cons x rest ih =>
    by_cases he : x.enabled = true
    · by_cases hv : (validate x.url).is_valid = true
      · simp [executeLoop, he, hv, ih, List.filter]
      · simp [executeLoop, he, hv, ih, List.filter]
    · simp [executeLoop, he, ih, List.filter]

/- ------------------------------------------------------------------ -/
/- Claim theorems.                                                    -/
/- ------------------------------------------------------------------ -/

/-- C5: for every list of browser actions and every open-outcome (including
every open failing or timing out), execute_actions returns success as a whole,
the set of opens attempted does not depend on the open outcomes, and an
enabled action with an invalid URL leaves the attempts of all the other
actions untouched, in list traversal order. -/
theorem c5_failure_isolation
    (openOutcome other : String → Except BrowserActionError Unit)
    (acts l₁ l₂ : List BrowserAction) (bad : BrowserAction)
    (he : bad.enabled = true) (hv : (validate bad.url).is_valid = false) :
    (execute_actions openOutcome acts).1 = .ok () ∧
    ((execute_actions openOutcome acts).2.map Prod.fst =
      (execute_actions other acts).2.map Prod.fst) ∧
    (execute_actions openOutcome (l₁ ++ bad :: l₂)).2 =
      (execute_actions openOutcome l₁).2 ++ (execute_actions openOutcome l₂).2 := by
  refine ⟨rfl, ?_, ?_⟩
  · rw [execute_actions, execute_actions, executeLoop_map_fst, executeLoop_map_fst]
  · show executeLoop openOutcome (l₁ ++ bad :: l₂) = _
    rw [executeLoop_append, executeLoop_cons_invalid openOutcome bad l₂ he hv]
    rfl

/-- Witness for C5 at a concrete input: two enabled valid actions around an
enabled javascript: action, with every open timing out. -/
theorem c5_witness :
    (execute_actions openFail ([actA] ++ actBad :: [actB])).1 = .ok () ∧
    ((execute_actions openFail ([actA] ++ actBad :: [actB])).2.map Prod.fst =
      (execute_actions openOk ([actA] ++ actBad :: [actB])).2.map Prod.fst) ∧
    (execute_actions openFail ([actA] ++ actBad :: [actB])).2 =
      (execute_actions openFail [actA]).2 ++ (execute_actions openFail [actB]).2 :=
  c5_failure_isolation openFail openOk ([actA] ++ actBad :: [actB]) [actA] [actB]
    actBad (by decide) (by decide)

/-- C9 counterexample: a fired task whose stored action list holds orders
[2, 1] has its URLs attempted in exactly that stored order — the attempted
sequence is not sorted ascending by the order field. -/
theorem c9_counterexample :
    (fire_browser_attempts parseTwoActions openOk browserTask).map
        (fun pr => pr.1.order) = [2, 1] ∧
    ¬ List.Sorted (fun a b : Int => a < b) [2, 1] := by
  constructor
  · decide
  · intro hsort
    exact absurd (List.rel_of_sorted_cons hsort 1 (by decide)) (by decide)

/-- C9 amended: the executor attempts the URLs of the enabled, valid actions
in the traversal order of the stored list, without re-sorting; consequently
the attempted sequence is ascending in the order field exactly when the
stored list already is (sortedness of the input is preserved). -/
theorem c9_traversal_order (openOutcome : String → Except BrowserActionError Unit)
    (acts : List BrowserAction) :
    (execute_actions openOutcome acts).2.map Prod.fst =
      acts.filter (fun a => a.enabled && (validate a.url).is_valid) ∧
    (List.Sorted (fun a b : BrowserAction => a.order < b.order) acts →
      List.Sorted (fun a b : Int => a < b)
        (((execute_actions openOutcome acts).2.map Prod.fst).map
          (fun a => a.order))) := by
  refine ⟨executeLoop_map_fst openOutcome acts, ?_⟩
  intro hs
  rw [show (execute_actions openOutcome acts).2 = executeLoop openOutcome acts
    from rfl, executeLoop_map_fst openOutcome acts]
  have hsub := List.filter_sublist
    (l := acts) (p := fun a => a.enabled && (validate a.url).is_valid)
  have h2 : List.Sorted (fun a b : BrowserAction => a.order < b.order)
      (acts.filter (fun a => a.enabled && (validate a.url).is_valid)) :=
    List.Pairwise.sublist hsub hs
  exact List.pairwise_map.mpr h2

/-- Witness for C9 amended at a concrete input: a stored list already sorted
by order yields an attempted sequence sorted by order. -/
theorem c9_witness :
    List.Sorted (fun a b : Int => a < b)
      (((execute_actions openOk [actB, actA]).2.map Prod.fst).map
        (fun a => a.order)) :=
  (c9_traversal_order openOk [actB, actA]).2
    (by
      refine List.sorted_cons.mpr ⟨?_, ?_⟩
      · intro b hb
        rw [List.mem_singleton] at hb
        rw [hb]
        decide
      · simp)

/-- C1 counterexample: with a delivery oracle failing on the first
notification (as fire_notification does when its task lookup fails) and a
second deliverable notification behind it, the sweep attempts only the first
delivery and returns the error — the remaining task's notification is
suppressed, contrary to the claim that the sweep proceeds to every remaining
task. -/
theorem c1_counterexample :
    (fire_sweep deliverFailB deliverOk [notifB, notifC]).1 ≠
      [notifB.task_id, notifC.task_id] ∧
    (fire_sweep deliverFailB deliverOk [notifB, notifC]).1 = ["nb"] ∧
    (fire_sweep deliverFailB deliverOk [notifB, notifC]).2 =
      .error (.NotFound "Task with id nb not found") := by decide

/-- C1 amended: when delivery succeeds for each earlier notification and the
fire call for one notification fails, check_and_fire_notifications' loop
attempts exactly the earlier deliveries plus the failing one and returns the
error — delivery for every notification after the failure is skipped for that
sweep (the scheduler loop only logs the returned error afterwards). -/
theorem c1_sweep_aborts
    (fire show_alert : TaskNotification → Except AppError Unit)
    (l₁ l₂ : List TaskNotification) (n : TaskNotification) (e : AppError)
    (hok : ∀ m ∈ l₁, fire m = .ok () ∧ show_alert m = .ok ())
    (hfail : fire n = .error e) :
    fire_sweep fire show_alert (l₁ ++ n :: l₂) =
      (l₁.map (fun x => x.task_id) ++ [n.task_id], .error e) := by
  induction l₁ with
  | nil => simp [fire_sweep, hfail]
  | cons m rest ih =>
    have hm := hok m (List.mem_cons_self m rest)
    have hrest : ∀ x ∈ rest, fire x = .ok () ∧ show_alert x = .ok () :=
      fun x hx => hok x (List.mem_cons_of_mem m hx)
    simp [fire_sweep, hm.1, hm.2, ih hrest]

/-- Witness for C1 amended at a concrete input: one successful delivery, then
a failing one, then a deliverable notification that is skipped. -/
theorem c1_witness :
    fire_sweep deliverFailB deliverOk ([notifA] ++ notifB :: [notifC]) =
      (["na", "nb"], .error (.NotFound "Task with id nb not found")) := by
  have h := c1_sweep_aborts deliverFailB deliverOk [notifA] [notifC] notifB
    (.NotFound "Task with id nb not found") (by decide) (by decide)
  simpa using h

/-- C2 counterexample: a level-1 notification for a task with an enabled,
non-empty browser-action set still runs the browser actions, and the Windows
alert carries the default sound — side effects are not gated on the
escalation level as claimed. -/
theorem c2_counterexample :
    lowNotif.level = 1 ∧
    ¬ levelGatedEffects
      (notification_effects true parseTwoActions openOk browserTask lowNotif)
      lowNotif.level := by
  refine ⟨rfl, ?_⟩
  intro hg
  have hb := (hg.2.2.2.1 rfl).2
  exact absurd hb (by decide)

/-- C2 amended: for every fired notification the alert is always shown, the
window is brought to the foreground exactly when level >= 3, the sound is
attached exactly on the Windows build independent of level, and the browser
attempts are exactly those of the task's stored action set, independent of
the level. -/
theorem c2_effects_characterisation (is_windows : Bool)
    (parseBA : String → Except AppError BrowserActionSettings)
    (openOutcome : String → Except BrowserActionError Unit)
    (task : Task) (n : TaskNotification) :
    (notification_effects is_windows parseBA openOutcome task n).alert_shown
        = true ∧
    ((notification_effects is_windows parseBA openOutcome task n).window_foregrounded
        = true ↔ 3 ≤ n.level) ∧
    (notification_effects is_windows parseBA openOutcome task n).sound_used
        = is_windows ∧
    (notification_effects is_windows parseBA openOutcome task n).attempted =
      fire_browser_attempts parseBA openOutcome task := by
  refine ⟨rfl, ?_, rfl, rfl⟩
  simp [notification_effects]

/-- C6: a task whose stored configuration is malformed (unparsable timeOfDay,
or daysOfWeek that does not deserialise to an integer array) contributes no
notification, and the sweep returns Ok of exactly the notifications of the
other tasks, in order — the malformed task never aborts check_notifications.
-/
theorem c6_malformed_isolated (p : String → Option (List Nat)) (now : LocalDT)
    (l₁ l₂ : List Task) (bad : Task) (hmal : MalformedConfig p bad) :
    evalTask p bad now = none ∧
    check_notifications p (l₁ ++ bad :: l₂) now =
      .ok (l₁.filterMap (fun t => evalTask p t now) ++
        l₂.filterMap (fun t => evalTask p t now)) := by
  have h := evalTask_malformed p bad now hmal
  refine ⟨h, ?_⟩
  unfold check_notifications
  rw [List.filterMap_append]
  simp only [List.filterMap_cons, h]

/-- Witness for C6 at a concrete input: a recurring task storing timeOfDay
"0900" (no colon) between two healthy tasks. -/
theorem c6_witness :
    evalTask dowOracle badTimeTask (mkLocal 2025 3 9 9 5) = none ∧
    check_notifications dowOracle ([recTask "[7]"] ++ badTimeTask :: [dueTask])
        (mkLocal 2025 3 9 9 5) =
      .ok ([recTask "[7]"].filterMap
          (fun t => evalTask dowOracle t (mkLocal 2025 3 9 9 5)) ++
        [dueTask].filterMap
          (fun t => evalTask dowOracle t (mkLocal 2025 3 9 9 5))) :=
  c6_malformed_isolated dowOracle (mkLocal 2025 3 9 9 5) [recTask "[7]"]
    [dueTask] badTimeTask
    (Or.inr ⟨rfl, Or.inl ⟨"0900", rfl, by decide⟩⟩)

/-- C3 counterexample: the not-done task due 2025-03-10T15:00 with
daysBefore = 1 does not fire at now = the due instant itself, although that
instant lies inside the claimed window [T - 1 day, T] — the evaluator's
window is not open throughout the claimed interval. -/
theorem c3_counterexample :
    dueTask.due_date = some (mkLocal 2025 3 10 15 0) ∧
    dueTask.notification_days_before = some 1 ∧
    (mkLocal 2025 3 10 15 0).toAbs - 1 * 1440 ≤ (mkLocal 2025 3 10 15 0).toAbs ∧
    (mkLocal 2025 3 10 15 0).toAbs ≤ (mkLocal 2025 3 10 15 0).toAbs ∧
    evalTask dowOracle dueTask (mkLocal 2025 3 10 15 0) = none := by decide

/-- C3 amended: for every not-done task with a due-date-based configuration
due at instant T with daysBefore = d, evaluate fires exactly when now lies
0..=15 minutes after the boundary B: the configured timeOfDay (09:00 when
unset) attached to the calendar day d days before T — a fixed 16-minute
window at B, not the whole interval [T - d days, T]. -/
theorem c3_window (p : String → Option (List Nat)) (task : Task)
    (now due : LocalDT) (h m : Nat)
    (hstat : ¬ task.status = "done")
    (hty : task.notification_type = some "due_date_based")
    (hdue : task.due_date = some due) (hwf : due.minute < 1440)
    (htp : parseTimeParts (task.notification_time.getD "09:00") = some (h, m))
    (hh : h ≤ 23) (hm2 : m ≤ 59) :
    ((evalTask p task now).isSome = true ↔
      (0 ≤ now.toAbs -
          ((due.day - task.notification_days_before.getD 1) * 1440 + (h * 60 + m : Nat)) ∧
        now.toAbs -
          ((due.day - task.notification_days_before.getD 1) * 1440 + (h * 60 + m : Nat)) ≤ 15)) := by
  rw [evalTask_due p task now hstat hty]
  exact check_due_date_isSome task now due h m hdue hwf htp hh hm2

/-- Witness for C3 amended: the same task fires ten minutes past its 09:00
boundary on 2025-03-09. -/
theorem c3_witness :
    (evalTask dowOracle dueTask (mkLocal 2025 3 9 9 10)).isSome = true :=
  (c3_window dowOracle dueTask (mkLocal 2025 3 9 9 10) (mkLocal 2025 3 10 15 0)
    9 0 (by decide) (by decide) (by decide) (by decide) (by decide) (by decide)
    (by decide)).mpr (by decide)

/-- C4 counterexample: the task due 2025-03-10T15:00 with daysBefore = 1 and
timeOfDay unset does not fire at now = 2025-03-09T15:05 — an unset timeOfDay
is replaced by the 09:00 default, not by the due instant's own time, so the
boundary is 2025-03-09T09:00, not 2025-03-09T15:00. -/
theorem c4_counterexample :
    evalTask dowOracle dueTask (mkLocal 2025 3 9 15 5) = none := by decide

/-- C4 amended: with timeOfDay unset the boundary falls at 09:00 on
2025-03-09 (the 09:00 default combined with the date one day before the due
date): the task fires at 09:00 and at 09:05 with daysUntilDue = 1, and does
not fire at 08:59 or 09:16. -/
theorem c4_boundary_at_nine :
    evalTask dowOracle dueTask (mkLocal 2025 3 9 9 5) =
      some { task_id := "due1", title := "report", level := 2,
             days_until_due := some 1, notification_type := "due_date_based" } ∧
    (evalTask dowOracle dueTask (mkLocal 2025 3 9 9 0)).isSome = true ∧
    evalTask dowOracle dueTask (mkLocal 2025 3 9 8 59) = none ∧
    evalTask dowOracle dueTask (mkLocal 2025 3 9 9 16) = none := by decide

/-- C7 counterexample: validate("google") is rejected — the host check
requires a dot outside the localhost/private-prefix exceptions, so the
auto-completed https://google does not validate as the claim states. -/
theorem c7_counterexample : (validate "google").is_valid = false := by decide

/-- C7 amended: validate("google") is invalid with the invalid-host-format
reason (auto-protocol completion succeeds but the bare host lacks a dot);
validate("javascript:alert(1)") is invalid citing dangerous patterns; and
validate of "https://" followed by 3000 characters is invalid with a reason
mentioning its excessive length. -/
theorem c7_scenarios :
    validate "google" = .invalid "Invalid host format: google" ∧
    validate "javascript:alert(1)" = .invalid "URL contains dangerous patterns" ∧
    (validate longUrl).is_valid = false ∧
    (validate longUrl).error = some "URL too long: 3008 characters (max: 2048)" := by
  have h : validate longUrl = .invalid ("URL too long: " ++
      toString longUrl.length ++ " characters (max: " ++ toString max_length ++ ")") := by
    unfold validate
    rw [if_pos]
    rw [longUrl_length]
    decide
  refine ⟨by decide, by decide, ?_, ?_⟩
  · rw [h]
    rfl
  · rw [h, longUrl_length]
    decide

/-- C8: the code evaluates the recurring weekday as
num_days_from_monday() + 1, i.e. 1=Monday..7=Sunday, while the claim (and the
Task model's own field comment) number Sunday as 0: on Sunday 2025-03-09
(claim weekday 0) a task with daysOfWeek = [0] never fires and one with
daysOfWeek = [7] does fire. -/
theorem c8_weekday_numbering :
    claimWeekday (mkLocal 2025 3 9 9 5) = 0 ∧
    (mkLocal 2025 3 9 9 5).weekdayFromMonday + 1 = 7 ∧
    evalTask dowOracle (recTask "[0]") (mkLocal 2025 3 9 9 5) = none ∧
    (evalTask dowOracle (recTask "[7]") (mkLocal 2025 3 9 9 5)).isSome = true := by
  decide

/-- C10: a due-date-based task with daysBefore and timeOfDay both null is
still evaluated, with daysBefore defaulting to 1 and timeOfDay to 09:00: it
fires exactly when now is 0..=15 minutes past 09:00 local time on the day
before the due date. -/
theorem c10_null_defaults (p : String → Option (List Nat)) (task : Task)
    (now due : LocalDT)
    (hstat : ¬ task.status = "done")
    (hty : task.notification_type = some "due_date_based")
    (hdue : task.due_date = some due) (hwf : due.minute < 1440)
    (hdb : task.notification_days_before = none)
    (hnt : task.notification_time = none) :
    ((evalTask p task now).isSome = true ↔
      (0 ≤ now.toAbs - ((due.day - 1) * 1440 + 540) ∧
        now.toAbs - ((due.day - 1) * 1440 + 540) ≤ 15)) := by
  rw [evalTask_due p task now hstat hty]
  have h := check_due_date_isSome task now due 9 0 hdue hwf
    (by rw [hnt]; decide) (by decide) (by decide)
  rw [hdb] at h
  simpa using h

/-- Witness for C10 at a concrete input: the all-defaults task due
2025-03-10T15:00 fires at 2025-03-09T09:10. -/
theorem c10_witness :
    (evalTask dowOracle defaultsTask (mkLocal 2025 3 9 9 10)).isSome = true :=
  (c10_null_defaults dowOracle defaultsTask (mkLocal 2025 3 9 9 10)
    (mkLocal 2025 3 10 15 0) (by decide) (by decide) (by decide) (by decide)
    (by decide) (by decide)).mpr (by decide)

end TaskNag
